import Mathlib

/-!
Shallow embedding of the PropertySystems Next.js frontend
(real-estate listing platform) for verification of its specification.

The embedding translates the TypeScript source files:
  - src/lib/api.ts                     (extractErrorMessage)
  - src/components/auth-provider.tsx   (duplicated extractErrorMessage,
                                        persistToken, refreshUser)
  - src/app/listings/page.tsx          (ListingsPage: filter state,
                                        query building, pagination, delete;
                                        CreateListingPage: validateForm,
                                        handleSubmit with image uploads)
  - src/app/listings/[listingId]/edit/page.tsx (EditListingPage.validateForm,
                                        textually identical to the create one)
  - the admin user-management page     (AdminPage: role gate, loadUsers)

JavaScript strings are modelled as Lean `String`s manipulated through
their character lists (the core `String.trim`/`String.toUpper` do not
reduce in the kernel, so ASCII-level models `jsTrim`/`jsToUpperCase` are
defined here).  JavaScript numbers produced by `Number(string)` are
modelled exactly for the string inputs the pages handle: a parsed value
is either NaN, ±Infinity, or a finite scaled decimal `m * 10^e`
(magnitude overflow of IEEE doubles to Infinity is not modelled; all
inputs considered lie well inside double range, where `Number` is exact
on decimal literals up to rounding that does not affect the sign,
finiteness and integrality tests the code performs).
-/

/-! ### JavaScript string primitives -/

/-- Model of the JavaScript `String.prototype.trim`: drop whitespace
from both ends.  Operates on the character list so that it reduces in
the kernel. -/
def jsTrim (s : String) : String :=
  ⟨((s.data.dropWhile Char.isWhitespace).reverse.dropWhile Char.isWhitespace).reverse⟩

/-- Model of the JavaScript `String.prototype.toUpperCase` (ASCII). -/
def jsToUpperCase (s : String) : String :=
  ⟨s.data.map Char.toUpper⟩

/-! ### JavaScript `Number(string)` model -/

/-- Result of converting a string with the JavaScript `Number`
function.  A finite value is a scaled decimal: `val m e` denotes the
real number `m * 10^e`. -/
inductive JsNum where
  | nan : JsNum
  | posInf : JsNum
  | negInf : JsNum
  | val (m : Int) (e : Int) : JsNum
deriving DecidableEq

/-- Numeric value of a finite `JsNum`, as a rational. -/
def JsNum.toVal : JsNum → Option ℚ
  | .val m e => some ((m : ℚ) * (10 : ℚ) ^ e)
  | _ => none

/-- Model of `Number.isFinite` applied to a parsed number. -/
def JsNum.isFinite : JsNum → Bool
  | .val _ _ => true
  | _ => false

/-- Model of the JavaScript comparison `x < 0` on a parsed number
(`NaN < 0` is false). -/
def JsNum.lt0 : JsNum → Bool
  | .val m _ => m < 0
  | .negInf => true
  | _ => false

/-- Model of the JavaScript comparison `x <= 0` on a parsed number
(`NaN <= 0` is false). -/
def JsNum.le0 : JsNum → Bool
  | .val m _ => m ≤ 0
  | .negInf => true
  | _ => false

/-- Model of `Number.isInteger` applied to a parsed number: `m * 10^e`
is an integer iff `e ≥ 0` or `10^(-e)` divides `m`. -/
def JsNum.isInteger : JsNum → Bool
  | .val m e => 0 ≤ e || (decide ((10 : Int) ^ (-e).toNat ∣ m))
  | _ => false

/-- Numeric value of a list of decimal digit characters. -/
def digitsToNat (l : List Char) : Nat :=
  l.foldl (fun a c => a * 10 + (c.toNat - '0'.toNat)) 0

/-- Parses the optional exponent part of a JavaScript decimal literal
(`e`/`E`, optional sign, at least one digit); returns the exponent, or
`none` when the remaining characters are not a valid exponent part. -/
def parseExpPart : List Char → Option Int
  | [] => some 0
  | c :: rest =>
    if c = 'e' ∨ c = 'E' then
      match rest with
      | '+' :: d => if !d.isEmpty && d.all Char.isDigit then some (digitsToNat d) else none
      | '-' :: d => if !d.isEmpty && d.all Char.isDigit then some (-(digitsToNat d : Int)) else none
      | d => if !d.isEmpty && d.all Char.isDigit then some (digitsToNat d) else none
    else none

/-- Parses an unsigned JavaScript decimal literal
(`Digits ['.' Digits?] Exponent?` or `'.' Digits Exponent?`), returning
the value as mantissa and power-of-ten exponent. -/
def parseUnsignedDec (l : List Char) : Option (Int × Int) :=
  let ip := l.takeWhile Char.isDigit
  let r1 := l.dropWhile Char.isDigit
  match r1 with
  | '.' :: r2 =>
    let fp := r2.takeWhile Char.isDigit
    let r3 := r2.dropWhile Char.isDigit
    if ip.isEmpty && fp.isEmpty then none
    else (parseExpPart r3).map fun e => ((digitsToNat (ip ++ fp) : Int), e - (fp.length : Int))
  | _ =>
    if ip.isEmpty then none
    else (parseExpPart r1).map fun e => ((digitsToNat ip : Int), e)

/-- Recognizes a hexadecimal digit character. -/
def isHexDigitChar (c : Char) : Bool :=
  c.isDigit || ('a' ≤ c && c ≤ 'f') || ('A' ≤ c && c ≤ 'F')

/-- Numeric value of hexadecimal digit characters. -/
def hexDigitsToNat (l : List Char) : Nat :=
  l.foldl (fun a c =>
    a * 16 +
      (if c.isDigit then c.toNat - '0'.toNat
       else if 'a' ≤ c ∧ c ≤ 'f' then c.toNat - 'a'.toNat + 10
       else c.toNat - 'A'.toNat + 10)) 0

/-- Recognizes the radix (hex/octal/binary) integer literals accepted by
the JavaScript `Number` conversion, returning their value.  Radix
literals admit no sign and no exponent. -/
def parseRadixLiteral : List Char → Option (Int × Int)
  | '0' :: x :: rest =>
    if (x = 'x' ∨ x = 'X') && !rest.isEmpty && rest.all isHexDigitChar then
      some ((hexDigitsToNat rest : Int), 0)
    else if (x = 'o' ∨ x = 'O') && !rest.isEmpty && rest.all fun c => '0' ≤ c ∧ c ≤ '7' then
      some ((rest.foldl (fun a c => a * 8 + (c.toNat - '0'.toNat)) 0 : Int), 0)
    else if (x = 'b' ∨ x = 'B') && !rest.isEmpty && rest.all fun c => c = '0' ∨ c = '1' then
      some ((rest.foldl (fun a c => a * 2 + (c.toNat - '0'.toNat)) 0 : Int), 0)
    else none
  | _ => none

/-- Model of the JavaScript `Number(string)` conversion.  Whitespace is
trimmed; the empty (trimmed) string converts to `0`; `Infinity` with an
optional sign converts to an infinity; otherwise an optionally signed
decimal literal or an unsigned radix literal converts to its value, and
anything else to NaN. -/
def jsNumberParse (s : String) : JsNum :=
  let t := (jsTrim s).data
  if t.isEmpty then .val 0 0
  else
    match t with
    | '+' :: rest =>
      if rest = "Infinity".data then .posInf
      else match parseUnsignedDec rest with
        | some (m, e) => .val m e
        | none => .nan
    | '-' :: rest =>
      if rest = "Infinity".data then .negInf
      else match parseUnsignedDec rest with
        | some (m, e) => .val (-m) e
        | none => .nan
    | l =>
      if l = "Infinity".data then .posInf
      else match parseUnsignedDec l with
        | some (m, e) => .val m e
        | none =>
          match parseRadixLiteral l with
          | some (m, e) => .val m e
          | none => .nan

example : jsNumberParse "" = .val 0 0 := by decide
example : jsNumberParse "abc" = .nan := by decide
example : jsNumberParse "25" = .val 25 0 := by decide
example : jsNumberParse "2.5" = .val 25 (-1) := by decide
example : jsNumberParse "-3e2" = .val (-3) 2 := by decide
example : jsNumberParse " 12 " = .val 12 0 := by decide
example : jsNumberParse "Infinity" = .posInf := by decide
example : jsNumberParse "0x10" = .val 16 0 := by decide
example : jsNumberParse "-0x10" = .nan := by decide
example : jsNumberParse "1e" = .nan := by decide
example : jsNumberParse "." = .nan := by decide
example : jsNumberParse "1." = .val 1 0 := by decide
example : jsNumberParse ".5" = .val 5 (-1) := by decide

/-! ### JSON values and error-message extraction (src/lib/api.ts) -/

/-- JSON-like JavaScript values as received from error response bodies.
`null` also stands for an absent (`undefined`) payload, which the code
treats identically (both are falsy and neither is a string or record). -/
inductive Json where
  | null : Json
  | str (s : String) : Json
  | num (n : JsNum) : Json
  | boolean (b : Bool) : Json
  | arr (items : List Json) : Json
  | obj (fields : List (String × Json)) : Json

/-- JavaScript truthiness test on a payload value: `null`/`undefined`,
the empty string, `0`, `NaN` and `false` are falsy; every object
(including arrays) is truthy. -/
def jsFalsy : Json → Bool
  | .null => true
  | .str s => s.isEmpty
  | .num n => n = .val 0 0 || n = .nan
  | .boolean b => !b
  | .arr _ => false
  | .obj _ => false

/-- JavaScript property access `v[k]`: `some` for a present field of an
object, `none` for `undefined` (missing field, or access on a
non-object such as an array or primitive). -/
def jsGet : Json → String → Option Json
  | .obj fields, k => (fields.find? fun p => p.1 = k).map (·.2)
  | _, _ => none

/-- Model of the `isRecord` type guard in src/lib/api.ts:
`typeof value === "object" && value !== null`; arrays are objects. -/
def isRecord : Json → Bool
  | .obj _ => true
  | .arr _ => true
  | _ => false

/-- Shared tail of the extraction: the `message` check followed by the
generic fallback. -/
def extractMessageField (payload : Json) : String :=
  match jsGet payload "message" with
  | some (.str m) => m
  | _ => "Unable to complete the request."

/-- Embedding of `extractErrorMessage` from src/lib/api.ts: falsy
payloads get the "Unexpected error" fallback; a string payload is
returned as is; on a record, a string `detail`, then the string `msg`
of the first element of a non-empty `detail` array (guarded by
`isRecord(first)`), then a string `message` are tried in order;
otherwise the generic fallback is returned. -/
def extractErrorMessage (payload : Json) : String :=
  if jsFalsy payload then "Unexpected error occurred."
  else
    match payload with
    | .str s => s
    | _ =>
      if isRecord payload then
        match jsGet payload "detail" with
        | some (.str d) => d
        | some (.arr (first :: _)) =>
          if isRecord first then
            match jsGet first "msg" with
            | some (.str m) => m
            | _ => extractMessageField payload
          else extractMessageField payload
        | _ => extractMessageField payload
      else "Unable to complete the request."

/-- Embedding of the duplicated `extractErrorMessage` inside
src/components/auth-provider.tsx.  It differs from the src/lib/api.ts
version in the first-element check of a `detail` array: the element is
cast to a record and `first.msg` is read without an `isRecord(first)`
guard, so when the first element is `null` (or `undefined`) the
property access throws a TypeError — modelled as `none`.  (The other
textual difference, `typeof payload === "object"` without a null
check, is immaterial: a null payload was already handled as falsy.) -/
def authExtractErrorMessage (payload : Json) : Option String :=
  if jsFalsy payload then some "Unexpected error occurred."
  else
    match payload with
    | .str s => some s
    | _ =>
      if isRecord payload then
        match jsGet payload "detail" with
        | some (.str d) => some d
        | some (.arr (first :: _)) =>
          match first with
          | .null => none
          | _ =>
            match jsGet first "msg" with
            | some (.str m) => some m
            | _ => some (extractMessageField payload)
        | _ => some (extractMessageField payload)
      else some "Unable to complete the request."

/-- Modelled from the claim of C9 (what the spec sentence states,
word for word): the payload itself when it is a non-empty string;
otherwise the first matching shape in the order string detail, string
msg of the first element of a non-empty detail array, string message;
otherwise a generic fallback, with the distinct "Unexpected" fallback
reserved for a null/absent payload only. -/
def specExtractErrorMessageC9 (payload : Json) : String :=
  match payload with
  | .null => "Unexpected error occurred."
  | .str s => if s.isEmpty then "Unable to complete the request." else s
  | _ =>
    match jsGet payload "detail" with
    | some (.str d) => d
    | some (.arr (first :: _)) =>
      match jsGet first "msg" with
      | some (.str m) => m
      | _ => extractMessageField payload
    | _ => extractMessageField payload

/-! ### Auth provider state (src/components/auth-provider.tsx) -/

/-- Profile record returned by GET /api/v1/auth/me (the AuthUser type). -/
structure AuthUser where
  id : String
  email : String
  full_name : Option String
  role : Option String
deriving DecidableEq

/-- Outgoing HTTP requests the embedded handlers can issue. -/
inductive Request where
  | getMe (token : String) : Request
  | getAdminUsers (token : String) : Request
  | deleteListing (token : String) (listingId : String) : Request
  | createListing (token : String) : Request
  | uploadImage (token : String) (listingId : String) (fileName : String) : Request
deriving DecidableEq

/-- Client-side auth state: the in-memory user and token of the
provider, plus the persisted copy of the token in local storage. -/
structure AuthState where
  user : Option AuthUser
  token : Option String
  storedToken : Option String
deriving DecidableEq

/-- Embedding of `persistToken` in src/components/auth-provider.tsx:
sets the in-memory token and writes through to local storage (a
non-null value is stored, a null one removed). -/
def persistToken (value : Option String) (s : AuthState) : AuthState :=
  { s with token := value, storedToken := value }

/-- Outcome of the profile fetch performed by `refreshUser` when a
token is present. -/
inductive FetchOutcome where
  | success (profile : AuthUser) : FetchOutcome
  | failure (message : String) : FetchOutcome
deriving DecidableEq

/-- Embedding of `refreshUser` in src/components/auth-provider.tsx.
With no token, the user is cleared and no request is made.  With a
token, GET /api/v1/auth/me is issued; on success the user is set to
the fetched profile; on failure the user is cleared and the token is
cleared through `persistToken null`.  Returns the new state together
with the list of requests issued. -/
def refreshUser (s : AuthState) (outcome : FetchOutcome) : AuthState × List Request :=
  match s.token with
  | none => ({ s with user := none }, [])
  | some tok =>
    match outcome with
    | .success profile => ({ s with user := some profile }, [.getMe tok])
    | .failure _ => (persistToken none { s with user := none }, [.getMe tok])

/-! ### Listings page state (src/app/listings/page.tsx) -/

/-- Sort fields offered by the listings page (sortFieldOptions). -/
inductive SortField where
  | created_at | price | area_sqm | rooms
deriving DecidableEq

/-- Sort orders offered by the listings page (sortOrderOptions). -/
inductive SortOrder where
  | asc | desc
deriving DecidableEq

/-- Embedding of the FiltersState type of the listings page.  The nine
text inputs hold raw strings; page and pageSize are numbers. -/
structure FiltersState where
  propertyType : String
  listingType : String
  city : String
  minPrice : String
  maxPrice : String
  minArea : String
  maxArea : String
  minRooms : String
  maxRooms : String
  sortBy : SortField
  sortOrder : SortOrder
  page : Nat
  pageSize : Nat
deriving DecidableEq

/-- Keys of FiltersState, as passed to `handleFilterChange`. -/
inductive FilterKey where
  | propertyType | listingType | city
  | minPrice | maxPrice | minArea | maxArea | minRooms | maxRooms
  | sortBy | sortOrder | page | pageSize
deriving DecidableEq

/-- Values assignable to a FiltersState field. -/
inductive FilterValue where
  | str (s : String) : FilterValue
  | sortF (f : SortField) : FilterValue
  | sortO (o : SortOrder) : FilterValue
  | nat (n : Nat) : FilterValue
deriving DecidableEq

/-- Value of a FiltersState field. -/
def getFilterField (f : FiltersState) : FilterKey → FilterValue
  | .propertyType => .str f.propertyType
  | .listingType => .str f.listingType
  | .city => .str f.city
  | .minPrice => .str f.minPrice
  | .maxPrice => .str f.maxPrice
  | .minArea => .str f.minArea
  | .maxArea => .str f.maxArea
  | .minRooms => .str f.minRooms
  | .maxRooms => .str f.maxRooms
  | .sortBy => .sortF f.sortBy
  | .sortOrder => .sortO f.sortOrder
  | .page => .nat f.page
  | .pageSize => .nat f.pageSize

/-- Computed update `{ ...prev, [key]: value }`.  The TypeScript types
make an ill-typed assignment impossible; the catch-all cases (value of
the wrong shape for the key) leave the state unchanged and are ruled
out by the `FilterWellTyped` hypothesis in the theorems. -/
def setFilterField (f : FiltersState) : FilterKey → FilterValue → FiltersState
  | .propertyType, .str s => { f with propertyType := s }
  | .listingType, .str s => { f with listingType := s }
  | .city, .str s => { f with city := s }
  | .minPrice, .str s => { f with minPrice := s }
  | .maxPrice, .str s => { f with maxPrice := s }
  | .minArea, .str s => { f with minArea := s }
  | .maxArea, .str s => { f with maxArea := s }
  | .minRooms, .str s => { f with minRooms := s }
  | .maxRooms, .str s => { f with maxRooms := s }
  | .sortBy, .sortF x => { f with sortBy := x }
  | .sortOrder, .sortO x => { f with sortOrder := x }
  | .page, .nat n => { f with page := n }
  | .pageSize, .nat n => { f with pageSize := n }
  | _, _ => f

/-- States that a FilterValue has the shape the TypeScript field type
demands for the given key. -/
def FilterWellTyped : FilterKey → FilterValue → Prop
  | .sortBy, v => ∃ x, v = .sortF x
  | .sortOrder, v => ∃ x, v = .sortO x
  | .page, v => ∃ n, v = .nat n
  | .pageSize, v => ∃ n, v = .nat n
  | _, v => ∃ s, v = .str s

/-- Embedding of `handleFilterChange` of the listings page:
`setFilters(prev => ({ ...prev, [key]: value, page: key === "page" ? value : 1 }))`.
When the key is `page` the page field was already set to the value by
the spread, so only the non-page case overrides it with 1. -/
def handleFilterChange (prev : FiltersState) (key : FilterKey) (value : FilterValue) :
    FiltersState :=
  let s := setFilterField prev key value
  if key = .page then s else { s with page := 1 }

/-- Inclusion test for a numeric range field of the listings query:
`raw !== "" && Number.isFinite(Number(raw))`. -/
def includeNumericField (raw : String) : Bool :=
  raw ≠ "" && (jsNumberParse raw).isFinite

/-- The (stateField, queryKey) pairs of the numericFields array of the
listings page, instantiated at a filter state. -/
def numericFieldPairs (f : FiltersState) : List (String × String) :=
  [(f.minPrice, "min_price"), (f.maxPrice, "max_price"),
   (f.minArea, "min_area"), (f.maxArea, "max_area"),
   (f.minRooms, "min_rooms"), (f.maxRooms, "max_rooms")]

/-- Query keys contributed to the outgoing listings request by the
numericFields.forEach loop: a key is set exactly when the raw value is
non-empty and converts to a finite number.  (The canonical string the
code sends as the parameter value, `value.toString()`, is not modelled;
the claims concern only which parameters are present.) -/
def numericQueryKeys (f : FiltersState) : List String :=
  (numericFieldPairs f).filterMap fun p =>
    if includeNumericField p.1 then some p.2 else none

/-- Display record for one listing (the ListingRead fields the delete
handler inspects). -/
structure ListingRead where
  id : String
  user_id : String
deriving DecidableEq

/-- Embedding of the ListingListRead response shape. -/
structure ListingListRead where
  items : List ListingRead
  total : Nat
  page : Nat
  page_size : Nat
deriving DecidableEq

/-- Embedding of the totalPages memo of the listings page:
1 when there is no data or the total is 0 (falsy), otherwise
`Math.max(1, Math.ceil(data.total / filters.pageSize))`.  Ceiling
division of naturals `(t + s - 1) / s` models `Math.ceil(t / s)`. -/
def totalPages (data : Option ListingListRead) (pageSize : Nat) : Nat :=
  match data with
  | none => 1
  | some d => if d.total = 0 then 1 else max 1 ((d.total + pageSize - 1) / pageSize)

/-- Embedding of the Previous button update:
`{ ...prev, page: Math.max(1, prev.page - 1) }` (natural subtraction
truncates at 0 exactly like `Math.max` caps the JS subtraction). -/
def prevPageClick (page : Nat) : Nat := max 1 (page - 1)

/-- Embedding of the Next button update:
`{ ...prev, page: Math.min(totalPages, prev.page + 1) }`. -/
def nextPageClick (tp page : Nat) : Nat := min tp (page + 1)

/-- Message shown under the results header. -/
structure StatusMessage where
  isError : Bool
  text : String
deriving DecidableEq

/-- Local state of the listings page that the delete handler touches. -/
structure ListingsPageState where
  data : Option ListingListRead
  actionMessage : Option StatusMessage
deriving DecidableEq

/-- Outcome of the DELETE request issued by the delete handler. -/
inductive DeleteOutcome where
  | success : DeleteOutcome
  | failure (message : String) : DeleteOutcome
deriving DecidableEq

/-- Embedding of `handleDelete` of the listings page.  The action
message is cleared; with no token an error message is set and nothing
else happens; without confirmation nothing happens; otherwise the
DELETE request is issued and, on success, the displayed page is
updated in place (items filtered by id, total decremented with
`Math.max(0, prev.total - 1)`, which natural subtraction models) with
no further request; on failure the error text is shown and the data is
untouched.  Returns the new state and the requests issued. -/
def handleDelete (st : ListingsPageState) (token : Option String) (confirmed : Bool)
    (outcome : DeleteOutcome) (listingId : String) : ListingsPageState × List Request :=
  let st0 : ListingsPageState := { st with actionMessage := none }
  match token with
  | none =>
    ({ st0 with actionMessage := some ⟨true, "Please sign in to delete listings."⟩ }, [])
  | some tok =>
    if !confirmed then (st0, [])
    else
      match outcome with
      | .success =>
        let newData := st0.data.map fun prev =>
          { prev with
            items := prev.items.filter fun item => item.id ≠ listingId,
            total := prev.total - 1 }
        ({ st0 with
            data := newData,
            actionMessage := some ⟨false, "Listing deleted successfully."⟩ },
         [.deleteListing tok listingId])
      | .failure msg =>
        ({ st0 with actionMessage := some ⟨true, msg⟩ }, [.deleteListing tok listingId])

/-! ### Create/edit listing form (src/app/listings/page.tsx
CreateListingPage and src/app/listings/[listingId]/edit/page.tsx
EditListingPage; their ListingFormState and validateForm are textually
identical, so a single embedding covers both) -/

/-- Property type options of the listing form. -/
inductive PropertyTypeOpt where
  | apartment | house | land | office
deriving DecidableEq

/-- Listing type options of the listing form. -/
inductive ListingTypeOpt where
  | sale | rent
deriving DecidableEq

/-- Embedding of the ListingFormState type: the numeric inputs hold raw
strings. -/
structure ListingFormState where
  title : String
  description : String
  propertyType : PropertyTypeOpt
  listingType : ListingTypeOpt
  price : String
  currency : String
  city : String
  areaSqm : String
  rooms : String
deriving DecidableEq

/-- Embedding of `validateForm` (identical in CreateListingPage and
EditListingPage): returns `none` when the form is valid and
`some errorText` for the first failing check, mirroring the early
returns of the source.  The falsy test `!form.title.trim()` is the
empty-string test on the trimmed value. -/
def validateForm (form : ListingFormState) : Option String :=
  let priceValue := jsNumberParse form.price
  let areaValue := jsNumberParse form.areaSqm
  let roomsValue := jsNumberParse form.rooms
  let currencyValue := jsToUpperCase (jsTrim form.currency)
  if jsTrim form.title = "" then some "Title is required."
  else if jsTrim form.city = "" then some "City is required."
  else if !priceValue.isFinite || priceValue.lt0 then
    some "Price must be a positive number."
  else if !areaValue.isFinite || areaValue.le0 then
    some "Area (sqm) must be greater than zero."
  else if !roomsValue.isInteger || roomsValue.lt0 then
    some "Rooms must be zero or a positive whole number."
  else if currencyValue.length ≠ 3 then
    some "Currency must be a 3-letter code (e.g., USD)."
  else none

/-- Per-file upload status of the create flow. -/
inductive UploadStatus where
  | pending | uploading | complete | error
deriving DecidableEq

/-- The uploadStates record of the create page, as its key-to-status
mapping (`{ ...prev, [name]: status }` is point update). -/
def updState (m : String → Option UploadStatus) (k : String) (v : UploadStatus) :
    String → Option UploadStatus :=
  fun k' => if k' = k then some v else m k'

/-- Embedding of `Object.fromEntries(images.map(file => [file.name, "pending"]))`. -/
def initialUploadStates (images : List (String × Option String)) :
    String → Option UploadStatus :=
  fun n => if (images.map (·.1)).contains n then some .pending else none

/-- Outcome of the POST /api/v1/listings request of the create flow. -/
inductive CreateOutcome where
  | success (id : String) (title : String) : CreateOutcome
  | failure (message : String) : CreateOutcome
deriving DecidableEq

/-- Embedding of the `for (const file of images)` upload loop of
`handleSubmit`: each image is first marked uploading, an upload request
is issued for it, and its status is set to complete on success or to
error on failure, in which case "name: reason" is appended to the
collected uploadErrors; a failure never stops the loop.  Files are
paired with the outcome of their upload (`none` = success,
`some reason` = failure).  Returns the final states, the collected
error strings, and the requests issued, all in iteration order. -/
def uploadLoop (tok listingId : String) :
    (String → Option UploadStatus) → List (String × Option String) →
    (String → Option UploadStatus) × List String × List Request
  | states, [] => (states, [], [])
  | states, (name, outcome) :: rest =>
    let st1 := updState states name .uploading
    let st2 := updState st1 name (if outcome.isNone then .complete else .error)
    let r := uploadLoop tok listingId st2 rest
    (r.1,
     (match outcome with | none => [] | some reason => [name ++ ": " ++ reason]) ++ r.2.1,
     .uploadImage tok listingId name :: r.2.2)

/-- Result of one run of the create page's `handleSubmit`: the pieces
of component state it wrote, plus the requests it issued. -/
structure SubmitResult where
  createdListingId : Option String
  createdTitle : Option String
  uploadStates : String → Option UploadStatus
  message : Option StatusMessage
  requests : List Request

/-- Embedding of `handleSubmit` of CreateListingPage.  With no token or
a failing validation, an error message is set and no request issued.
Otherwise the create request is issued; on failure its error is shown.
On success the created id and title are stored (and never cleared by
anything later in the run); with no images a success message ends the
run; with images, all are uploaded sequentially by `uploadLoop` and the
final message aggregates every failed file name with its reason, or
reports full success. -/
def handleSubmit (token : Option String) (form : ListingFormState)
    (images : List (String × Option String)) (createOutcome : CreateOutcome) :
    SubmitResult :=
  match token with
  | none =>
    { createdListingId := none, createdTitle := none,
      uploadStates := fun _ => none,
      message := some ⟨true, "Please log in to create a listing."⟩,
      requests := [] }
  | some tok =>
    match validateForm form with
    | some err =>
      { createdListingId := none, createdTitle := none,
        uploadStates := fun _ => none,
        message := some ⟨true, err⟩,
        requests := [] }
    | none =>
      match createOutcome with
      | .failure msg =>
        { createdListingId := none, createdTitle := none,
          uploadStates := fun _ => none,
          message := some ⟨true, msg⟩,
          requests := [.createListing tok] }
      | .success listingId listingTitle =>
        if images.isEmpty then
          { createdListingId := some listingId, createdTitle := some listingTitle,
            uploadStates := fun _ => none,
            message := some ⟨false, "Listing created successfully."⟩,
            requests := [.createListing tok] }
        else
          let r := uploadLoop tok listingId (initialUploadStates images) images
          { createdListingId := some listingId, createdTitle := some listingTitle,
            uploadStates := r.1,
            message := some
              (if r.2.1.isEmpty then
                ⟨false, "Listing and images uploaded successfully."⟩
              else
                ⟨true, "Listing created, but some images failed: " ++
                  String.intercalate "; " r.2.1⟩),
            requests := .createListing tok :: r.2.2 }

/-! ### Admin user-management page (src/unnamed/part_002, AdminPage) -/

/-- Embedding of the isAdmin memo of AdminPage:
`["admin", "moderator"].includes(user?.role ?? "")`. -/
def adminIsAdmin (user : Option AuthUser) : Bool :=
  ["admin", "moderator"].contains ((user.bind AuthUser.role).getD "")

/-- The three top-level views AdminPage can render. -/
inductive AdminView where
  | loadingView | restrictedView | usersView
deriving DecidableEq

/-- Embedding of the render branch of AdminPage: the permission-check
view while auth is loading, the access-restricted view for a non-admin
session, and the user table otherwise. -/
def adminRender (user : Option AuthUser) (authLoading : Bool) : AdminView :=
  if authLoading then .loadingView
  else if !adminIsAdmin user then .restrictedView
  else .usersView

/-- Requests issued by one run of the `loadUsers` callback of
AdminPage: with no token it only sets a status message; with a token it
issues GET /api/v1/admin/users. -/
def adminLoadUsers (token : Option String) : List Request :=
  match token with
  | none => []
  | some tok => [.getAdminUsers tok]

/-- Embedding of mounting AdminPage with a given auth snapshot: the
rendered view together with the requests the mount effect issues.  The
`useEffect(() => { loadUsers(); }, [loadUsers])` hook is registered
before the early returns of the render body, and React runs every
registered effect after the render commits regardless of which branch
was rendered, so `loadUsers` runs (and, when a token is present,
fetches) even when the access-restricted view is shown. -/
def adminPageMount (user : Option AuthUser) (token : Option String)
    (authLoading : Bool) : AdminView × List Request :=
  (adminRender user authLoading, adminLoadUsers token)

/-- Embedding of the initialFilters constant of the listings page. -/
def initialFilters : FiltersState :=
  { propertyType := "", listingType := "", city := "",
    minPrice := "", maxPrice := "", minArea := "", maxArea := "",
    minRooms := "", maxRooms := "",
    sortBy := .created_at, sortOrder := .desc, page := 1, pageSize := 12 }

/-- Modelled reading of the C4 claim's "its raw string value parses to
a finite number": a successful, finite numeric conversion of a
non-empty string.  The empty string is counted as not parsing — the
claim itself requires the value `""` to be omitted from the query,
even though the raw JavaScript conversion `Number("")` yields 0. -/
def specParsesFiniteC4 (raw : String) : Prop :=
  raw ≠ "" ∧ (jsNumberParse raw).isFinite = true

/-- Formatting of one entry of the uploadErrors list of the create
flow, for a file paired with its upload outcome: failures contribute
the string "name: reason", successes contribute nothing. -/
def fmtUploadError (p : String × Option String) : Option String :=
  p.2.map fun reason => p.1 ++ ": " ++ reason

/-- Concrete listing form passing every validation check, used by the
witnesses. -/
def sampleListingForm : ListingFormState :=
  { title := "Modern loft", description := "",
    propertyType := .apartment, listingType := .sale,
    price := "100", currency := "USD", city := "Paris",
    areaSqm := "50", rooms := "2" }

/-! ### Theorems -/

/-- Modelled from the claim of C9 as amended: the same shape priority,
but the distinct "Unexpected" fallback applies to every falsy payload
(null/absent, empty string, 0, NaN, false), not only to null/absent. -/
def specExtractErrorMessageC9Amended (payload : Json) : String :=
  if jsFalsy payload then "Unexpected error occurred."
  else
    match payload with
    | .str s => s
    | _ =>
      match jsGet payload "detail" with
      | some (.str d) => d
      | some (.arr (first :: _)) =>
        match jsGet first "msg" with
        | some (.str m) => m
        | _ => extractMessageField payload
      | _ => extractMessageField payload

/-- C9 counterexample: for the payload `""` (a string, but not a
non-empty one, and neither null nor absent) the claim prescribes the
generic "Unable to complete the request." fallback, but the function
returns the "Unexpected error occurred." fallback reserved by the
claim for null/absent payloads: the `!payload` check in the source
treats every falsy payload alike. -/
theorem extractErrorMessage_emptyString_counterexample :
    extractErrorMessage (Json.str "") = "Unexpected error occurred." ∧
    specExtractErrorMessageC9 (Json.str "") = "Unable to complete the request." ∧
    extractErrorMessage (Json.str "") ≠ specExtractErrorMessageC9 (Json.str "") := by
  refine ⟨rfl, rfl, ?_⟩
  decide

/-- C9 (amended): extractErrorMessage returns the payload itself when
it is a non-empty string; otherwise the first matching shape in the
order string detail, string msg of the first element of a non-empty
detail array, string message; otherwise a generic fallback — with the
distinct fallback applying to every falsy payload, not only null. -/
theorem extractErrorMessage_spec (payload : Json) :
    extractErrorMessage payload = specExtractErrorMessageC9Amended payload := by
  cases payload with
  | null => rfl
  | str s => simp [extractErrorMessage, specExtractErrorMessageC9Amended]
  | num n =>
    simp [extractErrorMessage, specExtractErrorMessageC9Amended, isRecord, jsGet,
      extractMessageField]
  | boolean b =>
    simp [extractErrorMessage, specExtractErrorMessageC9Amended, isRecord, jsGet,
      extractMessageField]
  | arr items =>
    simp [extractErrorMessage, specExtractErrorMessageC9Amended, isRecord, jsGet, jsFalsy]
  | obj fields =>
    simp only [extractErrorMessage, specExtractErrorMessageC9Amended, isRecord, jsFalsy,
      Bool.false_eq_true, if_false]
    rcases h : jsGet (Json.obj fields) "detail" with _ | j
    · simp [h]
    · cases j with
      | arr items =>
        cases items with
        | nil => simp [h]
        | cons first rest =>
          cases first <;> simp [h, isRecord, jsGet, extractMessageField]
      | _ => simp [h]

/-- C10 counterexample: at the payload `{ "detail": [null] }` the copy
of extractErrorMessage inside the auth provider reads `first.msg`
without the `isRecord(first)` guard the src/lib/api.ts version has, so
the property access on `null` throws a TypeError (modelled as `none`)
while the exported version returns the generic fallback — the two
functions are not extensionally equal. -/
theorem authExtractErrorMessage_detailNull_counterexample :
    authExtractErrorMessage (Json.obj [("detail", Json.arr [Json.null])]) = none ∧
    extractErrorMessage (Json.obj [("detail", Json.arr [Json.null])]) =
      "Unable to complete the request." ∧
    authExtractErrorMessage (Json.obj [("detail", Json.arr [Json.null])]) ≠
      some (extractErrorMessage (Json.obj [("detail", Json.arr [Json.null])])) := by
  refine ⟨rfl, rfl, ?_⟩
  decide

/-- C10 (amended): whenever the auth-provider copy of
extractErrorMessage returns at all (does not throw), it returns exactly
the string the src/lib/api.ts version returns; it throws exactly on a
truthy payload whose `detail` field is a non-empty array starting with
null. -/
theorem authExtractErrorMessage_agrees (payload : Json)
    (h : authExtractErrorMessage payload ≠ none) :
    authExtractErrorMessage payload = some (extractErrorMessage payload) := by
  revert h
  cases payload with
  | null => intro h; rfl
  | str s =>
    intro h
    simp only [authExtractErrorMessage, extractErrorMessage]
    split <;> rfl
  | num n =>
    intro h
    simp only [authExtractErrorMessage, extractErrorMessage, isRecord, jsGet,
      extractMessageField]
    split <;> rfl
  | boolean b =>
    intro h
    simp only [authExtractErrorMessage, extractErrorMessage, isRecord, jsGet,
      extractMessageField]
    split <;> rfl
  | arr items =>
    intro h
    simp [authExtractErrorMessage, extractErrorMessage, isRecord, jsGet, extractMessageField,
      jsFalsy]
  | obj fields =>
    intro h
    revert h
    simp only [authExtractErrorMessage, extractErrorMessage, isRecord, jsFalsy,
      Bool.false_eq_true, if_false]
    rcases hd : jsGet (Json.obj fields) "detail" with _ | j
    · simp [hd]
    · cases j with
      | arr items =>
        cases items with
        | nil => simp [hd]
        | cons first rest =>
          cases first with
          | obj f2 =>
            rcases hm : jsGet (Json.obj f2) "msg" with _ | mj
            · simp [hd, isRecord, hm, extractMessageField]
            · cases mj <;> simp [hd, isRecord, hm, extractMessageField]
          | _ => simp [hd, isRecord, jsGet, extractMessageField]
      | _ => simp [hd]

/-- Witness for the C10 amended theorem at the concrete payload
`{ "detail": "boom" }`, where the auth copy does return. -/
theorem authExtractErrorMessage_agrees_witness :
    authExtractErrorMessage (Json.obj [("detail", Json.str "boom")]) =
      some (extractErrorMessage (Json.obj [("detail", Json.str "boom")])) :=
  authExtractErrorMessage_agrees (Json.obj [("detail", Json.str "boom")]) (by decide)

/-- C1 counterexample: a session with role "user" and a bearer token.
Mounting the admin page renders the access-restricted view, yet the
GET /api/v1/admin/users request is issued anyway: the mount effect
calling loadUsers is registered before the early returns and runs
regardless of the rendered branch, and loadUsers skips the fetch only
when the token is absent. -/
theorem adminPage_roleUser_request_issued :
    (adminPageMount (some ⟨"u1", "user@example.com", none, some "user"⟩)
        (some "tok") false).1 = .restrictedView ∧
    (adminPageMount (some ⟨"u1", "user@example.com", none, some "user"⟩)
        (some "tok") false).2 ≠ [] := by
  refine ⟨rfl, ?_⟩
  decide

/-- C1 (amended): for every session whose role is not admin or
moderator (auth loading finished), the admin page renders the
access-restricted view, but the user-list request is not gated by the
role: it is issued exactly when a token is present. -/
theorem adminPage_nonAdmin_spec (user : Option AuthUser) (token : Option String)
    (h : adminIsAdmin user = false) :
    (adminPageMount user token false).1 = .restrictedView ∧
    ((adminPageMount user token false).2 = [] ↔ token = none) ∧
    (∀ tok, token = some tok →
      (adminPageMount user token false).2 = [.getAdminUsers tok]) := by
  refine ⟨?_, ?_, ?_⟩
  · simp [adminPageMount, adminRender, h]
  · cases token <;> simp [adminPageMount, adminLoadUsers]
  · intro tok htok
    subst htok
    rfl

/-- Witness for the C1 amended theorem at a role-"user" session with a
token present. -/
theorem adminPage_nonAdmin_spec_witness :
    (adminPageMount (some ⟨"u2", "b@c.d", none, some "user"⟩) (some "t2") false).1 =
        .restrictedView ∧
    (adminPageMount (some ⟨"u2", "b@c.d", none, some "user"⟩) (some "t2") false).2 =
        [.getAdminUsers "t2"] := by
  have h := adminPage_nonAdmin_spec (some ⟨"u2", "b@c.d", none, some "user"⟩)
    (some "t2") (by decide)
  exact ⟨h.1, h.2.2 "t2" rfl⟩

/-- C2: the totalPages memo equals `max(1, ceil(total / pageSize))`
(in particular 3 for total 25 and page size 12, and 1 for a missing
response or total 0), the Previous and Next updates are exactly
`max(1, page - 1)` and `min(totalPages, page + 1)`, and for a current
page inside [1, totalPages] both navigations land inside
[1, totalPages] again. -/
theorem listingsPagination_spec (d : ListingListRead) (s p : Nat) (hs : 0 < s)
    (hp1 : 1 ≤ p) (hp2 : p ≤ totalPages (some d) s) :
    totalPages (some d) s = max 1 ((d.total + s - 1) / s) ∧
    totalPages none s = 1 ∧
    totalPages (some { items := [], total := 25, page := 1, page_size := 12 }) 12 = 3 ∧
    prevPageClick p = max 1 (p - 1) ∧
    nextPageClick (totalPages (some d) s) p = min (totalPages (some d) s) (p + 1) ∧
    1 ≤ prevPageClick p ∧ prevPageClick p ≤ totalPages (some d) s ∧
    1 ≤ nextPageClick (totalPages (some d) s) p ∧
    nextPageClick (totalPages (some d) s) p ≤ totalPages (some d) s := by
  have h1tp : 1 ≤ totalPages (some d) s := hp1.trans hp2
  refine ⟨?_, rfl, by decide, rfl, rfl, ?_, ?_, ?_, ?_⟩
  · unfold totalPages
    rcases Nat.eq_zero_or_pos d.total with h0 | hpos
    · have hz : (s - 1) / s = 0 := Nat.div_eq_of_lt (by omega)
      simp [h0, hz]
    · simp [Nat.pos_iff_ne_zero.mp hpos]
  · exact le_max_left _ _
  · exact max_le h1tp (le_trans (Nat.sub_le _ _) hp2)
  · exact le_min h1tp (by omega)
  · exact min_le_left _ _

/-- Witness for the C2 theorem at total 25, page size 12, page 2. -/
theorem listingsPagination_spec_witness :
    totalPages (some { items := [], total := 25, page := 2, page_size := 12 }) 12 =
      max 1 ((25 + 12 - 1) / 12) ∧
    1 ≤ prevPageClick 2 ∧
    nextPageClick (totalPages (some ⟨[], 25, 2, 12⟩) 12) 2 ≤
      totalPages (some ⟨[], 25, 2, 12⟩) 12 := by
  have h := listingsPagination_spec { items := [], total := 25, page := 2, page_size := 12 }
    12 2 (by decide) (by decide) (by decide)
  exact ⟨h.1, h.2.2.2.2.2.1, h.2.2.2.2.2.2.2.2⟩

/-- C5: refreshUser clears the user and issues no request when there
is no token (token and its persisted copy unchanged); with a token it
issues the profile fetch and, on success, stores the profile leaving
the token untouched; on failure it clears the user and both the
in-memory and persisted token. -/
theorem refreshUser_spec (s : AuthState) (outcome : FetchOutcome) :
    (s.token = none →
      refreshUser s outcome = ({ s with user := none }, [])) ∧
    (∀ tok profile, s.token = some tok → outcome = .success profile →
      refreshUser s outcome = ({ s with user := some profile }, [.getMe tok])) ∧
    (∀ tok msg, s.token = some tok → outcome = .failure msg →
      refreshUser s outcome =
        ({ user := none, token := none, storedToken := none }, [.getMe tok])) := by
  refine ⟨?_, ?_, ?_⟩
  · intro h
    simp [refreshUser, h]
  · intro tok profile h ho
    subst ho
    simp [refreshUser, h]
  · intro tok msg h ho
    subst ho
    simp [refreshUser, h, persistToken]

/-- Witness for the C5 theorem: a failing profile fetch with a stale
token clears the user, the token, and its persisted copy. -/
theorem refreshUser_spec_witness :
    refreshUser ⟨none, some "stale", some "stale"⟩ (.failure "401") =
      (⟨none, none, none⟩, [.getMe "stale"]) :=
  (refreshUser_spec ⟨none, some "stale", some "stale"⟩ (.failure "401")).2.2
    "stale" "401" rfl rfl

/-- C6: the delete handler does nothing but show an error when no
token is present, does nothing when the confirmation is declined, and
otherwise issues exactly the DELETE request (no listings re-fetch);
on success it removes the deleted id from the displayed items and
decrements the displayed total from t to t - 1 in place, and on
failure it shows the error text and leaves the displayed data
untouched. -/
theorem handleDelete_spec (st : ListingsPageState) (confirmed : Bool)
    (outcome : DeleteOutcome) (x : String) (d : ListingListRead)
    (hd : st.data = some d) (ht : 1 ≤ d.total) :
    (handleDelete st none confirmed outcome x =
      ({ st with actionMessage := some ⟨true, "Please sign in to delete listings."⟩ }, [])) ∧
    (∀ tok, handleDelete st (some tok) false outcome x =
      ({ st with actionMessage := none }, [])) ∧
    (∀ tok, handleDelete st (some tok) true .success x =
      ({ data := some { d with
            items := d.items.filter fun item => item.id ≠ x,
            total := d.total - 1 },
          actionMessage := some ⟨false, "Listing deleted successfully."⟩ },
       [.deleteListing tok x])) ∧
    (∀ tok msg, handleDelete st (some tok) true (.failure msg) x =
      ({ st with actionMessage := some ⟨true, msg⟩ }, [.deleteListing tok x])) ∧
    d.total - 1 + 1 = d.total := by
  refine ⟨rfl, fun tok => rfl, ?_, fun tok msg => rfl, by omega⟩
  intro tok
  simp [handleDelete, hd]

/-- Witness for the C6 theorem: deleting listing "b" from a two-item
page with total 2 removes it and drops the total to 1 with only the
DELETE request issued. -/
theorem handleDelete_spec_witness :
    handleDelete ⟨some ⟨[⟨"a", "u1"⟩, ⟨"b", "u1"⟩], 2, 1, 12⟩, none⟩
        (some "tok") true .success "b" =
      ({ data := some ⟨[⟨"a", "u1"⟩], 1, 1, 12⟩,
         actionMessage := some ⟨false, "Listing deleted successfully."⟩ },
       [.deleteListing "tok" "b"]) := by
  have h := (handleDelete_spec ⟨some ⟨[⟨"a", "u1"⟩, ⟨"b", "u1"⟩], 2, 1, 12⟩, none⟩
    true .success "b" ⟨[⟨"a", "u1"⟩, ⟨"b", "u1"⟩], 2, 1, 12⟩ rfl (by decide)).2.2.1 "tok"
  rw [h]
  rfl

/-- C3: for a well-typed update, handleFilterChange sets exactly the
requested field to the new value; the page field becomes the new value
when the key is the page key and 1 otherwise; every other field is
unchanged. -/
theorem handleFilterChange_spec (prev : FiltersState) (key : FilterKey)
    (value : FilterValue) (h : FilterWellTyped key value) :
    getFilterField (handleFilterChange prev key value) key = value ∧
    (∀ n, key = .page → value = .nat n → (handleFilterChange prev key value).page = n) ∧
    (key ≠ .page → (handleFilterChange prev key value).page = 1) ∧
    (∀ k, k ≠ key → k ≠ .page →
      getFilterField (handleFilterChange prev key value) k = getFilterField prev k) := by
  cases key <;> obtain ⟨x, rfl⟩ := h <;>
    exact ⟨by simp [handleFilterChange, setFilterField, getFilterField],
      fun n hkey hval => by simp_all [handleFilterChange, setFilterField, getFilterField],
      fun hne => by simp_all [handleFilterChange, setFilterField, getFilterField],
      fun k hk hp => by
        cases k <;> simp_all [handleFilterChange, setFilterField, getFilterField]⟩

/-- Witness for the C3 theorem: changing the city on the initial
filters stores the city and resets the page to 1. -/
theorem handleFilterChange_spec_witness :
    getFilterField (handleFilterChange initialFilters .city (.str "Paris")) .city =
      .str "Paris" ∧
    (handleFilterChange initialFilters .city (.str "Paris")).page = 1 := by
  have h := handleFilterChange_spec initialFilters .city (.str "Paris") ⟨"Paris", rfl⟩
  exact ⟨h.1, h.2.2.1 (by decide)⟩

/-- C4: a numeric range field contributes its backend parameter to the
outgoing listings query exactly when its raw value parses to a finite
number; in particular the raw values "" and "abc" never pass the
inclusion test and are omitted. -/
theorem numericQueryKeys_spec (f : FiltersState) :
    ("min_price" ∈ numericQueryKeys f ↔ specParsesFiniteC4 f.minPrice) ∧
    ("max_price" ∈ numericQueryKeys f ↔ specParsesFiniteC4 f.maxPrice) ∧
    ("min_area" ∈ numericQueryKeys f ↔ specParsesFiniteC4 f.minArea) ∧
    ("max_area" ∈ numericQueryKeys f ↔ specParsesFiniteC4 f.maxArea) ∧
    ("min_rooms" ∈ numericQueryKeys f ↔ specParsesFiniteC4 f.minRooms) ∧
    ("max_rooms" ∈ numericQueryKeys f ↔ specParsesFiniteC4 f.maxRooms) ∧
    includeNumericField "" = false ∧
    includeNumericField "abc" = false := by
  refine ⟨?_, ?_, ?_, ?_, ?_, ?_, by decide, by decide⟩ <;>
    simp [numericQueryKeys, numericFieldPairs, List.mem_filterMap, specParsesFiniteC4,
      includeNumericField]

/-- Witness for the C4 theorem: with min price "5" and max price
"abc", the query carries min_price and omits max_price. -/
theorem numericQueryKeys_spec_witness :
    "min_price" ∈ numericQueryKeys
      { initialFilters with minPrice := "5", maxPrice := "abc" } ∧
    "max_price" ∉ numericQueryKeys
      { initialFilters with minPrice := "5", maxPrice := "abc" } := by
  have h := numericQueryKeys_spec { initialFilters with minPrice := "5", maxPrice := "abc" }
  refine ⟨h.1.mpr ⟨by decide, by decide⟩, fun hm => ?_⟩
  exact absurd (h.2.1.mp hm).2 (by decide)

/-- Requests issued by the upload loop: one upload per file, in list
order, regardless of outcomes. -/
theorem uploadLoop_requests (tok listingId : String)
    (files : List (String × Option String)) :
    ∀ states, (uploadLoop tok listingId states files).2.2 =
      files.map fun p => Request.uploadImage tok listingId p.1 := by
  induction files with
  | nil => intro states; rfl
  | cons p rest ih =>
    intro states
    obtain ⟨name, outcome⟩ := p
    simp [uploadLoop, ih]

/-- Errors collected by the upload loop: exactly one "name: reason"
entry per failed file, in list order. -/
theorem uploadLoop_errors (tok listingId : String)
    (files : List (String × Option String)) :
    ∀ states, (uploadLoop tok listingId states files).2.1 =
      files.filterMap fmtUploadError := by
  induction files with
  | nil => intro states; rfl
  | cons p rest ih =>
    intro states
    obtain ⟨name, outcome⟩ := p
    cases outcome <;> simp [uploadLoop, ih, fmtUploadError]

/-- The upload loop leaves the status of a name not among its files
untouched. -/
theorem uploadLoop_untouched (tok listingId : String)
    (files : List (String × Option String)) :
    ∀ states name, name ∉ files.map (·.1) →
      (uploadLoop tok listingId states files).1 name = states name := by
  induction files with
  | nil => intro states name _; rfl
  | cons p rest ih =>
    intro states name hmem
    obtain ⟨pn, po⟩ := p
    simp only [List.map_cons, List.mem_cons, not_or] at hmem
    simp [uploadLoop, ih _ _ hmem.2, updState, hmem.1]

/-- Final status after the upload loop (for distinct file names): each
processed file ends complete on success and error on failure. -/
theorem uploadLoop_final_status (tok listingId : String)
    (files : List (String × Option String)) :
    ∀ states, (files.map (·.1)).Nodup →
      ∀ name outcome, (name, outcome) ∈ files →
        (uploadLoop tok listingId states files).1 name =
          some (if outcome.isNone then .complete else .error) := by
  induction files with
  | nil => intro states _ name outcome hmem; simp at hmem
  | cons p rest ih =>
    intro states hnd name outcome hmem
    obtain ⟨pn, po⟩ := p
    simp only [List.map_cons, List.nodup_cons] at hnd
    rcases List.mem_cons.mp hmem with heq | hmem2
    · cases heq
      simp only [uploadLoop]
      rw [uploadLoop_untouched tok listingId rest _ name hnd.1]
      simp [updState]
    · exact ih _ hnd.2 name outcome hmem2

/-- C7: when the listing record was created, the images are uploaded
sequentially in list order; the created id is stored and no failure
clears it or stops the remaining uploads; each file ends complete when
its upload succeeded and error when it failed; and when at least one
upload failed the final message is an error aggregating every failed
file name with its reason, joined in order. -/
theorem handleSubmit_imageUploads_spec (tok : String) (form : ListingFormState)
    (images : List (String × Option String)) (listingId listingTitle : String)
    (hv : validateForm form = none) (hne : images ≠ [])
    (hnd : (images.map (·.1)).Nodup) :
    (handleSubmit (some tok) form images (.success listingId listingTitle)).createdListingId
      = some listingId ∧
    (handleSubmit (some tok) form images (.success listingId listingTitle)).requests
      = .createListing tok :: (images.map fun p => .uploadImage tok listingId p.1) ∧
    (∀ name outcome, (name, outcome) ∈ images →
      (handleSubmit (some tok) form images (.success listingId listingTitle)).uploadStates
          name
        = some (if outcome.isNone then .complete else .error)) ∧
    ((∃ p ∈ images, p.2 ≠ none) →
      (handleSubmit (some tok) form images (.success listingId listingTitle)).message
        = some ⟨true, "Listing created, but some images failed: " ++
            String.intercalate "; " (images.filterMap fmtUploadError)⟩) := by
  have hie : images.isEmpty = false := by
    cases images with
    | nil => exact absurd rfl hne
    | cons a l => rfl
  simp only [handleSubmit, hv, hie, Bool.false_eq_true, if_false]
  refine ⟨trivial, ?_, ?_, ?_⟩
  · simp [uploadLoop_requests]
  · intro name outcome hmem
    exact uploadLoop_final_status tok listingId images _ hnd name outcome hmem
  · intro hex
    have herr : images.filterMap fmtUploadError ≠ [] := by
      obtain ⟨p, hp, hfail⟩ := hex
      obtain ⟨pn, po⟩ := p
      cases po with
      | none => exact absurd rfl hfail
      | some r =>
        exact List.ne_nil_of_mem
          (List.mem_filterMap.mpr ⟨(pn, some r), hp, rfl⟩)
    simp [uploadLoop_errors, herr]

/-- Witness for the C7 theorem at the spec's concrete scenario: two
images where the second upload fails; the id is present, the first
file ends complete, the second ends error, and the combined error
message names the second file with its reason. -/
theorem handleSubmit_imageUploads_spec_witness :
    (handleSubmit (some "t") sampleListingForm
        [("a.jpg", none), ("b.jpg", some "Upload failed")]
        (.success "L1" "Modern loft")).createdListingId = some "L1" ∧
    (handleSubmit (some "t") sampleListingForm
        [("a.jpg", none), ("b.jpg", some "Upload failed")]
        (.success "L1" "Modern loft")).uploadStates "a.jpg" = some .complete ∧
    (handleSubmit (some "t") sampleListingForm
        [("a.jpg", none), ("b.jpg", some "Upload failed")]
        (.success "L1" "Modern loft")).uploadStates "b.jpg" = some .error ∧
    (handleSubmit (some "t") sampleListingForm
        [("a.jpg", none), ("b.jpg", some "Upload failed")]
        (.success "L1" "Modern loft")).message =
      some ⟨true, "Listing created, but some images failed: b.jpg: Upload failed"⟩ := by
  have h := handleSubmit_imageUploads_spec "t" sampleListingForm
    [("a.jpg", none), ("b.jpg", some "Upload failed")] "L1" "Modern loft"
    (by decide) (by decide) (by decide)
  refine ⟨h.1, ?_, ?_, ?_⟩
  · simpa using h.2.2.1 "a.jpg" none (by simp)
  · simpa using h.2.2.1 "b.jpg" (some "Upload failed") (by simp)
  · rw [h.2.2.2 ⟨("b.jpg", some "Upload failed"), by simp, by simp⟩]
    decide

/-- Positivity of the scale factor of a finite parsed number. -/
theorem zpow10_pos (e : Int) : (0 : ℚ) < (10 : ℚ) ^ e :=
  zpow_pos (by norm_num) e

/-- The sign of a finite parsed number is the sign of its mantissa. -/
theorem jsNum_val_nonneg_iff (m e : Int) :
    (0 : ℚ) ≤ (m : ℚ) * (10 : ℚ) ^ e ↔ 0 ≤ m := by
  rw [mul_nonneg_iff_of_pos_right (zpow10_pos e), Int.cast_nonneg]

/-- Strict version of the sign characterization. -/
theorem jsNum_val_pos_iff (m e : Int) :
    (0 : ℚ) < (m : ℚ) * (10 : ℚ) ^ e ↔ 0 < m := by
  rw [mul_pos_iff_of_pos_right (zpow10_pos e), Int.cast_pos]

/-- The modelled `Number.isInteger` test is correct: a nonnegative
finite parsed number passes it exactly when its rational value is a
natural number. -/
theorem jsNum_val_integer_iff (m e : Int) :
    (JsNum.isInteger (.val m e) = true ∧ 0 ≤ m) ↔
      ∃ n : ℕ, (m : ℚ) * (10 : ℚ) ^ e = n := by
  rcases le_or_lt 0 e with he | he
  · have hint : JsNum.isInteger (.val m e) = true := by
      simp [JsNum.isInteger, he]
    rw [hint]
    simp only [true_and]
    constructor
    · intro hm
      lift e to ℕ using he with k
      refine ⟨m.toNat * 10 ^ k, ?_⟩
      rw [zpow_natCast]
      have hcast : ((m.toNat : ℚ)) = (m : ℚ) := by exact_mod_cast Int.toNat_of_nonneg hm
      push_cast
      rw [hcast]
    · rintro ⟨n, hn⟩
      exact (jsNum_val_nonneg_iff m e).mp (hn ▸ n.cast_nonneg)
  · have hzp : (10 : ℚ) ^ e = ((10 : ℚ) ^ ((-e).toNat))⁻¹ := by
      rw [← zpow_natCast, Int.toNat_of_nonneg (by omega : (0 : ℤ) ≤ -e), ← zpow_neg,
        neg_neg]
    have hne10 : ((10 : ℚ) ^ ((-e).toNat)) ≠ 0 := by positivity
    constructor
    · rintro ⟨hint, hm⟩
      simp only [JsNum.isInteger, Bool.or_eq_true, decide_eq_true_eq] at hint
      rcases hint with he' | hdvd
      · omega
      · obtain ⟨c, hc⟩ := hdvd
        have hc0 : 0 ≤ c := by
          by_contra hneg
          push_neg at hneg
          nlinarith [pow_pos (by norm_num : (0 : ℤ) < 10) ((-e).toNat)]
        refine ⟨c.toNat, ?_⟩
        rw [hzp, hc]
        push_cast
        field_simp
        exact_mod_cast (Int.toNat_of_nonneg hc0).symm
    · rintro ⟨n, hn⟩
      rw [hzp] at hn
      have hmq : (m : ℚ) = (n : ℚ) * (10 : ℚ) ^ ((-e).toNat) := by
        field_simp at hn
        linarith
      have hmz : m = (n : ℤ) * 10 ^ ((-e).toNat) := by exact_mod_cast hmq
      constructor
      · simp only [JsNum.isInteger, Bool.or_eq_true, decide_eq_true_eq]
        right
        exact ⟨n, by rw [hmz]; ring⟩
      · rw [hmz]
        positivity

/-- Characterization of the price check of validateForm: finite and
not negative means the parsed value exists and is nonnegative. -/
theorem jsNum_finite_nonneg_char (x : JsNum) :
    (x.isFinite = true ∧ x.lt0 = false) ↔
      ∃ q : ℚ, x.toVal = some q ∧ 0 ≤ q := by
  cases x with
  | val m e =>
    simp only [JsNum.isFinite, JsNum.lt0, JsNum.toVal, true_and, decide_eq_false_iff_not,
      Int.not_lt, Option.some.injEq]
    constructor
    · intro hm
      exact ⟨_, rfl, (jsNum_val_nonneg_iff m e).mpr hm⟩
    · rintro ⟨q, rfl, hq0⟩
      exact (jsNum_val_nonneg_iff m e).mp hq0
  | nan => simp [JsNum.isFinite, JsNum.toVal]
  | posInf => simp [JsNum.isFinite, JsNum.toVal]
  | negInf => simp [JsNum.isFinite, JsNum.toVal]

/-- Characterization of the area check of validateForm: finite and not
`<= 0` means the parsed value exists and is positive. -/
theorem jsNum_finite_pos_char (x : JsNum) :
    (x.isFinite = true ∧ x.le0 = false) ↔
      ∃ q : ℚ, x.toVal = some q ∧ 0 < q := by
  cases x with
  | val m e =>
    simp only [JsNum.isFinite, JsNum.le0, JsNum.toVal, true_and, decide_eq_false_iff_not,
      Int.not_le, Option.some.injEq]
    constructor
    · intro hm
      exact ⟨_, rfl, (jsNum_val_pos_iff m e).mpr hm⟩
    · rintro ⟨q, rfl, hq0⟩
      exact (jsNum_val_pos_iff m e).mp hq0
  | nan => simp [JsNum.isFinite, JsNum.toVal]
  | posInf => simp [JsNum.isFinite, JsNum.toVal]
  | negInf => simp [JsNum.isFinite, JsNum.toVal]

/-- Characterization of the rooms check of validateForm: integer and
not negative means the parsed value exists and is a natural number. -/
theorem jsNum_integer_nonneg_char (x : JsNum) :
    (x.isInteger = true ∧ x.lt0 = false) ↔
      ∃ n : ℕ, x.toVal = some ((n : ℚ)) := by
  cases x with
  | val m e =>
    have h := jsNum_val_integer_iff m e
    simp only [JsNum.lt0, JsNum.toVal, decide_eq_false_iff_not, Int.not_lt,
      Option.some.injEq] at *
    constructor
    · rintro ⟨hint, hm⟩
      obtain ⟨n, hn⟩ := h.mp ⟨hint, hm⟩
      exact ⟨n, hn⟩
    · rintro ⟨n, hn⟩
      exact h.mpr ⟨n, hn⟩
  | nan => simp [JsNum.isInteger, JsNum.toVal]
  | posInf => simp [JsNum.isInteger, JsNum.toVal]
  | negInf => simp [JsNum.isInteger, JsNum.toVal]

/-- C8: client-side validation accepts the form exactly when the
trimmed title and city are non-empty, the price parses to a finite
number that is at least 0, the area parses to a finite number greater
than 0, the rooms value parses to a non-negative integer, and the
currency is exactly 3 characters long after trimming and
upper-casing. -/
theorem validateForm_spec (form : ListingFormState) :
    validateForm form = none ↔
      (jsTrim form.title ≠ "" ∧ jsTrim form.city ≠ "" ∧
       (∃ q : ℚ, (jsNumberParse form.price).toVal = some q ∧ 0 ≤ q) ∧
       (∃ q : ℚ, (jsNumberParse form.areaSqm).toVal = some q ∧ 0 < q) ∧
       (∃ n : ℕ, (jsNumberParse form.rooms).toVal = some ((n : ℚ))) ∧
       (jsToUpperCase (jsTrim form.currency)).length = 3) := by
  rw [← jsNum_finite_nonneg_char, ← jsNum_finite_pos_char, ← jsNum_integer_nonneg_char]
  simp only [validateForm]
  split_ifs with h1 h2 h3 h4 h5 h6 <;> simp_all
  all_goals (intros; simp_all)

/-- Witness for the C8 theorem: the sample form is accepted, and the
theorem recovers its six validity facts. -/
theorem validateForm_spec_witness :
    validateForm sampleListingForm = none ∧
    (∃ q : ℚ, (jsNumberParse sampleListingForm.price).toVal = some q ∧ 0 ≤ q) := by
  have h := validateForm_spec sampleListingForm
  have hv : validateForm sampleListingForm = none := by decide
  exact ⟨hv, (h.mp hv).2.2.1⟩
